import Mathlib

/-!
The airdog button listener (`src/modules/airdog/airdog.c`)

A shallow embedding of the remote-button daemon: the session record
`airdog_data`, the two file-level flags `airdog_running` and `cmd_pub`, and the
functions `usage`, `airdog_main`, `send_set_mode`, `airdog_start` and
`airdog_cycle`.

Effects are explicit.  What a function reads from its environment (the uORB
status topics, the GPIO levels, the results of `open`, `orb_subscribe`,
`orb_advertise` and `work_queue`) is an argument; what it does to its
environment is a list of `Event`s, in program order.
-/

namespace Airdog

/-! ## Parts that come from headers outside the source tree -/

/-- Modelled from the spec: the enumerators of `commander/px4_custom_mode.h`, the
opcode of `uORB/topics/vehicle_command.h` and the macro `USEC2TICK` of
`nuttx/clock.h` are used by `airdog.c` but declared elsewhere; the functions
below take them as a parameter. -/
structure Consts where
  PX4_CUSTOM_MAIN_MODE_FOLLOW : Int
  PX4_CUSTOM_MAIN_MODE_EASY : Int
  PX4_CUSTOM_MAIN_MODE_SEATBELT : Int
  VEHICLE_CMD_DO_SET_MODE : Int
  USEC2TICK : Nat → Nat

/-- The three cycle members are three different enumerators. -/
def Consts.distinct (K : Consts) : Prop :=
  K.PX4_CUSTOM_MAIN_MODE_FOLLOW ≠ K.PX4_CUSTOM_MAIN_MODE_EASY ∧
  K.PX4_CUSTOM_MAIN_MODE_FOLLOW ≠ K.PX4_CUSTOM_MAIN_MODE_SEATBELT ∧
  K.PX4_CUSTOM_MAIN_MODE_EASY ≠ K.PX4_CUSTOM_MAIN_MODE_SEATBELT

instance (K : Consts) : Decidable K.distinct := by
  unfold Consts.distinct; infer_instance

/-- The code `m` is one of the three cycle members. -/
def Consts.recognized (K : Consts) (m : Int) : Prop :=
  m = K.PX4_CUSTOM_MAIN_MODE_FOLLOW ∨ m = K.PX4_CUSTOM_MAIN_MODE_EASY ∨
  m = K.PX4_CUSTOM_MAIN_MODE_SEATBELT

instance (K : Consts) (m : Int) : Decidable (K.recognized m) := by
  unfold Consts.recognized; infer_instance

/-- Sample values for evaluating the functions: `MANUAL = 1, SEATBELT, EASY, AUTO`
followed by `FOLLOW`, the MAVLink opcode 176 of `DO_SET_MODE`, and a 10 ms system
tick. -/
def sampleConsts : Consts where
  PX4_CUSTOM_MAIN_MODE_FOLLOW := 5
  PX4_CUSTOM_MAIN_MODE_EASY := 3
  PX4_CUSTOM_MAIN_MODE_SEATBELT := 2
  VEHICLE_CMD_DO_SET_MODE := 176
  USEC2TICK := fun us => us / 10000

/-- Modelled from the spec: `struct airdog_status_s` of `uORB/topics/airdog_status.h`
is not in the source tree.  The one field `airdog.c` reads is `custom_mode`, a
32-bit unsigned field whose upper 16 bits carry the mode code. -/
structure airdog_status_s where
  custom_mode : Nat
  deriving DecidableEq

/-- Modelled from the spec: `struct vehicle_status_s` of `uORB/topics/vehicle_status.h`
is not in the source tree; `send_set_mode` reads its two identity fields. -/
structure vehicle_status_s where
  system_id : Nat
  component_id : Nat
  deriving DecidableEq

/-- Modelled from the spec: `struct vehicle_command_s` of
`uORB/topics/vehicle_command.h` is not in the source tree.  The fields
`send_set_mode` writes are listed one by one; `rest_zero` stands for every other
byte of the structure, which `memset` leaves at zero.  `param1` and `param2` are
`float` in the wire structure and hold the integers stored in them (exact
below 2^24). -/
structure vehicle_command_s where
  command : Int
  confirmation : Bool
  param1 : Int
  param2 : Int
  source_system : Nat
  source_component : Nat
  target_system : Nat
  target_component : Nat
  rest_zero : Unit
  deriving DecidableEq

/-! ## The data of `airdog.c` -/

/-- The C enumeration `enum REMOTE_BUTTON_STATE { PAUSE=1, START=2 }`; the record
is zero-filled by `memset`, so the raw integer is kept. -/
abbrev REMOTE_BUTTON_STATE := Int

def PAUSE : REMOTE_BUTTON_STATE := 1
def START : REMOTE_BUTTON_STATE := 2

def MAV_MODE_FLAG_CUSTOM_MODE_ENABLED : Nat := 1
def MAV_MODE_FLAG_SAFETY_ARMED : Nat := 128

/-- The C record `struct gpio_button_s`. -/
structure gpio_button_s where
  state : REMOTE_BUTTON_STATE
  pin : Int
  button_pressed : Bool
  deriving DecidableEq

/-- The two workers that `airdog.c` hands to `work_queue`. -/
inductive Worker
  | airdog_start
  | airdog_cycle
  deriving DecidableEq

/-- The C record `struct airdog_app_s`.  The member `work` is the queue entry
that only the scheduler reads and writes; queueing on it is recorded as a
`work_queue` event. -/
structure airdog_app_s where
  base_mode : Nat
  gpio_fd : Int
  inputs : Int
  follow_button : gpio_button_s
  airdog_status : airdog_status_s
  airdog_status_sub : Int
  current_custom_mode : Int
  deriving DecidableEq

/-- The three file-level variables `airdog_data`, `airdog_running`, `cmd_pub`. -/
structure Globals where
  airdog_data : airdog_app_s
  airdog_running : Bool
  cmd_pub : Int
  deriving DecidableEq

/-- The requests of `drivers/drv_gpio.h` that `airdog.c` passes to `ioctl`. -/
inductive GpioRequest
  | GPIO_SET_INPUT
  | GPIO_GET
  | GPIO_CLEAR
  deriving DecidableEq

/-- The texts `airdog.c` hands to `warnx` and `errx`, one constructor per format
string, with the value of its `%d` where it has one. -/
inductive Message
  | button_1_pressed (current_custom_mode : Int)
  | button_1_let_go
  | missing_command
  | unrecognized_command
  | usage_line
  | already_running
  | failed_to_queue_work (ret : Int)
  | listener_starting
  | stop
  | not_running
  | running
  | not_started
  deriving DecidableEq

/-- What a function does to its environment: one constructor per call made for
its effect (log, open, subscribe, advertise, publish, queue, configure or clear
the GPIO), with the arguments of the call. -/
inductive Event
  | warnx (m : Message)
  | orb_subscribe_vehicle_status
  | orb_subscribe_airdog_status
  | orb_advertise (cmd : vehicle_command_s)
  | orb_publish (handle : Int) (cmd : vehicle_command_s)
  | work_queue (worker : Worker) (delay : Nat)
  | ioctl (fd : Int) (request : GpioRequest) (arg : Int)
  | open_gpio
  | errx (code : Int) (m : Message)
  deriving DecidableEq

/-- What `send_set_mode` reads: the vehicle status that `orb_copy` delivers and
the handle that `orb_advertise` would return. -/
structure SendEnv where
  state : vehicle_status_s
  advert : Int
  deriving DecidableEq

/-- What one run of `airdog_cycle` reads: the answer of `orb_check`, the status
that `orb_copy` would deliver, the 32-bit word of `GPIO_GET`, and the
environment of a possible `send_set_mode`. -/
structure Tick where
  updated : Bool
  status : airdog_status_s
  gpio_values : Nat
  send : SendEnv
  deriving DecidableEq

/-- What `airdog_start` reads: the results of `open`, of `orb_subscribe` and of
`work_queue` (zero when the worker was queued). -/
structure StartEnv where
  fd : Int
  sub : Int
  ret : Int
  deriving DecidableEq

/-! ## The functions -/

/-- The first half of `send_set_mode` (the block under `fill command`): the
zeroed command with its eight fields written.  `base_mode` arrives as a
`uint8_t`, `custom_main_mode` as the enumerator the caller names, `state` is the
vehicle status just copied. -/
def fill_command (K : Consts) (state : vehicle_status_s)
    (base_mode : Nat) (custom_main_mode : Int) : vehicle_command_s :=
  { command := K.VEHICLE_CMD_DO_SET_MODE
    confirmation := false
    param1 := (base_mode % 256 : Nat)
    param2 := custom_main_mode
    source_system := state.system_id
    source_component := state.component_id
    target_system := 1
    target_component := 50
    rest_zero := () }

/-- The C function `send_set_mode(base_mode, custom_main_mode)`: subscribes to
and copies the vehicle status, fills the command, and advertises it when
`cmd_pub < 0`, publishes it on `cmd_pub` otherwise.  Returns the new `cmd_pub`
and the events. -/
def send_set_mode (K : Consts) (e : SendEnv) (cmd_pub : Int)
    (base_mode : Nat) (custom_main_mode : Int) : Int × List Event :=
  let cmd := fill_command K e.state base_mode custom_main_mode
  if cmd_pub < 0 then
    (e.advert, [Event.orb_subscribe_vehicle_status, Event.orb_advertise cmd])
  else
    (cmd_pub, [Event.orb_subscribe_vehicle_status, Event.orb_publish cmd_pub cmd])

/-- The C function `airdog_start`, run on the record `airdog_data`. -/
def airdog_start (e : StartEnv) (g : Globals) : Globals × List Event :=
  let priv := g.airdog_data
  let priv := { priv with
    base_mode := (MAV_MODE_FLAG_SAFETY_ARMED ||| MAV_MODE_FLAG_CUSTOM_MODE_ENABLED) % 256 }
  let priv := { priv with follow_button := { priv.follow_button with pin := 0 } }
  let priv := { priv with follow_button := { priv.follow_button with button_pressed := false } }
  let priv := { priv with follow_button := { priv.follow_button with state := PAUSE } }
  let priv := { priv with inputs := priv.follow_button.pin + 1 }
  let priv := { priv with gpio_fd := e.fd }
  let ev0 := [Event.open_gpio]
  if priv.gpio_fd < 0 then
    ({ g with airdog_data := priv, airdog_running := false }, ev0)
  else
    let ev1 := [Event.ioctl priv.gpio_fd GpioRequest.GPIO_SET_INPUT priv.inputs]
    let priv := { priv with airdog_status := { custom_mode := 0 } }
    let priv := { priv with airdog_status_sub := e.sub }
    let ev2 := [Event.orb_subscribe_airdog_status]
    let ev3 := [Event.work_queue Worker.airdog_cycle 0]
    if e.ret ≠ 0 then
      ({ g with airdog_data := priv, airdog_running := false }, ev0 ++ ev1 ++ ev2 ++ ev3)
    else
      ({ g with airdog_data := priv }, ev0 ++ ev1 ++ ev2 ++ ev3)

/-- The mode code `priv->airdog_status.custom_mode >> 16` of a 32-bit field. -/
def custom_mode_of (s : airdog_status_s) : Int :=
  (((s.custom_mode % 4294967296) >>> 16 : Nat) : Int)

/-- The test `!(gpio_values & (1 << priv->follow_button.pin))`: the button line
is active-low.  The shift is defined in C for pins 0 to 30. -/
def button_low (priv : airdog_app_s) (gpio_values : Nat) : Bool :=
  (gpio_values % 4294967296) &&& (1 <<< priv.follow_button.pin.toNat) == 0

/-- The C function `airdog_cycle`, run on the record `airdog_data`. -/
def airdog_cycle (K : Consts) (t : Tick) (g : Globals) : Globals × List Event :=
  let priv := g.airdog_data
  let priv := if t.updated then { priv with airdog_status := t.status } else priv
  let custom_mode := custom_mode_of priv.airdog_status
  let r : airdog_app_s × Int × List Event :=
    if button_low priv t.gpio_values then
      if priv.follow_button.button_pressed == false then
        let ev0 := [Event.warnx (Message.button_1_pressed priv.current_custom_mode)]
        let s : Int × List Event :=
          if custom_mode = K.PX4_CUSTOM_MAIN_MODE_FOLLOW then
            send_set_mode K t.send g.cmd_pub priv.base_mode K.PX4_CUSTOM_MAIN_MODE_EASY
          else if custom_mode = K.PX4_CUSTOM_MAIN_MODE_EASY then
            send_set_mode K t.send g.cmd_pub priv.base_mode K.PX4_CUSTOM_MAIN_MODE_FOLLOW
          else if custom_mode = K.PX4_CUSTOM_MAIN_MODE_SEATBELT then
            send_set_mode K t.send g.cmd_pub priv.base_mode K.PX4_CUSTOM_MAIN_MODE_FOLLOW
          else
            (g.cmd_pub, [])
        ({ priv with follow_button := { priv.follow_button with button_pressed := true } },
          s.1, ev0 ++ s.2)
      else
        (priv, g.cmd_pub, [])
    else
      if priv.follow_button.button_pressed == true then
        ({ priv with follow_button := { priv.follow_button with button_pressed := false } },
          g.cmd_pub, [Event.warnx Message.button_1_let_go])
      else
        (priv, g.cmd_pub, [])
  let priv := r.1
  if g.airdog_running then
    ({ g with airdog_data := priv, cmd_pub := r.2.1 },
      r.2.2 ++ [Event.work_queue Worker.airdog_cycle (K.USEC2TICK 100000)])
  else
    ({ g with airdog_data := priv, cmd_pub := r.2.1 },
      r.2.2 ++ [Event.ioctl priv.gpio_fd GpioRequest.GPIO_CLEAR priv.inputs])

/-! ## Observations on runs -/

/-- The commands handed to the command channel, by advertising or publishing. -/
def emitted : List Event → List vehicle_command_s
  | [] => []
  | Event.orb_advertise c :: es => c :: emitted es
  | Event.orb_publish _ c :: es => c :: emitted es
  | _ :: es => emitted es

/-- The delays with which `airdog_cycle` was queued again. -/
def rescheduled : List Event → List Nat
  | [] => []
  | Event.work_queue Worker.airdog_cycle d :: es => d :: rescheduled es
  | _ :: es => rescheduled es

/-- The `GPIO_CLEAR` requests issued, as descriptor and mask. -/
def cleared : List Event → List (Int × Int)
  | [] => []
  | Event.ioctl fd GpioRequest.GPIO_CLEAR m :: es => (fd, m) :: cleared es
  | _ :: es => cleared es

/-- One executed tick: its inputs, the globals before and after, its events. -/
structure TickLog where
  tick : Tick
  before : Globals
  after : Globals
  events : List Event
  deriving DecidableEq

/-- Consecutive ticks: `airdog_cycle` run once per element of the list, each on
the globals the previous one left. -/
def airdog_run (K : Consts) : Globals → List Tick → List TickLog
  | _, [] => []
  | g, t :: ts =>
    let r := airdog_cycle K t g
    { tick := t, before := g, after := r.1, events := r.2 } :: airdog_run K r.1 ts

/-- The globals after consecutive ticks. -/
def airdog_after (K : Consts) : Globals → List Tick → Globals
  | g, [] => g
  | g, t :: ts => airdog_after K (airdog_cycle K t g).1 ts

/-- All commands emitted over a run, in order. -/
def run_emitted : List TickLog → List vehicle_command_s
  | [] => []
  | l :: ls => emitted l.events ++ run_emitted ls

/-- A recognized press edge: `button_pressed` goes from false to true. -/
def TickLog.press_edge (l : TickLog) : Bool :=
  l.before.airdog_data.follow_button.button_pressed == false &&
  l.after.airdog_data.follow_button.button_pressed == true

/-- The tick changed `button_pressed`. -/
def TickLog.changed (l : TickLog) : Bool :=
  l.before.airdog_data.follow_button.button_pressed !=
  l.after.airdog_data.follow_button.button_pressed

/-- The raw level sampled on the tick is "pressed". -/
def TickLog.raw_pressed (l : TickLog) : Bool :=
  button_low l.before.airdog_data l.tick.gpio_values

/-- The status snapshot a tick works with: the copied value when `orb_check`
reported an update, the stored one otherwise. -/
def snapshot (t : Tick) (g : Globals) : airdog_status_s :=
  if t.updated then t.status else g.airdog_data.airdog_status

/-- The resolver as the specification words it (its section 4.1), kept apart
from the code: FOLLOW gives EASY, EASY gives FOLLOW, SEATBELT gives FOLLOW, any
other code gives nothing. -/
def spec_nextMode (K : Consts) (current : Int) : Option Int :=
  if current = K.PX4_CUSTOM_MAIN_MODE_FOLLOW then some K.PX4_CUSTOM_MAIN_MODE_EASY
  else if current = K.PX4_CUSTOM_MAIN_MODE_EASY then some K.PX4_CUSTOM_MAIN_MODE_FOLLOW
  else if current = K.PX4_CUSTOM_MAIN_MODE_SEATBELT then some K.PX4_CUSTOM_MAIN_MODE_FOLLOW
  else none

/-- What may happen to the globals during a session after `airdog_start`: a tick
of `airdog_cycle`, or a write of `airdog_running` by the command line
(`airdog_main` sets it on `start` and clears it on `stop`). -/
inductive Step
  | tick (t : Tick)
  | set_running (b : Bool)
  deriving DecidableEq

/-- The globals after a list of session steps. -/
def airdog_session (K : Consts) : Globals → List Step → Globals
  | g, [] => g
  | g, Step.tick t :: ss => airdog_session K (airdog_cycle K t g).1 ss
  | g, Step.set_running b :: ss => airdog_session K { g with airdog_running := b } ss

/-- A zero-filled session record and the initial values of the two flags. -/
def zeroGlobals : Globals where
  airdog_data :=
    { base_mode := 0, gpio_fd := 0, inputs := 0,
      follow_button := { state := 0, pin := 0, button_pressed := false },
      airdog_status := { custom_mode := 0 }, airdog_status_sub := 0,
      current_custom_mode := 0 }
  airdog_running := false
  cmd_pub := -1

/-- A started session for evaluating the functions: descriptor 3, subscription
7, the worker queued, the running flag set by the command line. -/
def sampleStarted : Globals :=
  { (airdog_start ⟨3, 7, 0⟩ zeroGlobals).1 with airdog_running := true }

/-- A sample tick: the status reports mode code `mode`, the GPIO word is
`gpio_values`, the vehicle is system 9 component 8, and an advertisement would
return handle 44. -/
def sampleTick (mode : Nat) (gpio_values : Nat) : Tick :=
  { updated := true, status := { custom_mode := mode * 65536 + 17 },
    gpio_values := gpio_values, send := { state := ⟨9, 8⟩, advert := 44 } }

/-- A sample tick on which `orb_check` reports no update. -/
def staleTick (gpio_values : Nat) : Tick :=
  { updated := false, status := { custom_mode := 0 },
    gpio_values := gpio_values, send := { state := ⟨9, 8⟩, advert := 44 } }

/-- The sample session after a released tick that copied mode code 5. -/
def sampleFollow : Globals :=
  (airdog_cycle sampleConsts (sampleTick 5 1) sampleStarted).1

/-- The second of two stale ticks on `sampleFollow`, the first released and the
second pressed, as `airdog_run` logs it. -/
def sampleStaleLog : TickLog :=
  let g := (airdog_cycle sampleConsts (staleTick 1) sampleFollow).1
  let r := airdog_cycle sampleConsts (staleTick 0) g
  { tick := staleTick 0, before := g, after := r.1, events := r.2 }

/-- The command the sample session emits for a press at FOLLOW. -/
def sampleCommand : vehicle_command_s :=
  { command := 176, confirmation := false, param1 := 129, param2 := 3,
    source_system := 9, source_component := 8, target_system := 1,
    target_component := 50, rest_zero := () }

/-! ## The command line -/

/-- The record `airdog_data` after `memset(&airdog_data, 0, sizeof(airdog_data))`. -/
def airdog_data_zero : airdog_app_s :=
  { base_mode := 0, gpio_fd := 0, inputs := 0,
    follow_button := { state := 0, pin := 0, button_pressed := false },
    airdog_status := { custom_mode := 0 }, airdog_status_sub := 0,
    current_custom_mode := 0 }

/-- How a call of `airdog_main` ends: the globals it leaves, the calls it made,
and the code it hands to `exit` (`errx` exits with its first argument). -/
structure MainResult where
  globals : Globals
  events : List Event
  exit_code : Int
  deriving DecidableEq

/-- The C function `usage(reason)`: warns with the reason when there is one, then
leaves through `errx(1, ...)` with the usage line. -/
def usage (reason : Option Message) : List Event :=
  (match reason with
    | some r => [Event.warnx r]
    | none => []) ++ [Event.errx 1 Message.usage_line]

/-- The end of `airdog_main`, from the test for `status` on: reached by every word
that is not `start`, and by `stop` after it has cleared the running flag, since
that branch has no `exit`. -/
def airdog_main_tail (word : String) (g : Globals) (ev : List Event) : MainResult :=
  if word = "status" then
    if g.airdog_running then
      { globals := g, events := ev ++ [Event.warnx Message.running], exit_code := 0 }
    else
      { globals := g, events := ev ++ [Event.warnx Message.not_started], exit_code := 0 }
  else
    { globals := g, events := ev ++ usage (some Message.unrecognized_command), exit_code := 1 }

/-- The C function `airdog_main(argc, argv)`, with `argc` the length of `argv`
and `ret` the result of its `work_queue` call.  With `argc = 1` the function
hands the null pointer `argv[1]` to `strcmp`, which C leaves undefined: the
result is `none`. -/
def airdog_main (ret : Int) (argv : List String) (g : Globals) : Option MainResult :=
  if argv.length < 1 then
    some { globals := g, events := usage (some Message.missing_command), exit_code := 1 }
  else
    match argv[1]? with
    | none => none
    | some word =>
      if word = "start" then
        if g.airdog_running then
          some { globals := g, events := [Event.warnx Message.already_running], exit_code := 0 }
        else
          let g1 := { g with airdog_data := airdog_data_zero }
          let ev := [Event.work_queue Worker.airdog_start 0]
          if ret ≠ 0 then
            some { globals := g1, events := ev ++ [Event.errx 1 (Message.failed_to_queue_work ret)],
                   exit_code := 1 }
          else
            some { globals := { g1 with airdog_running := true },
                   events := ev ++ [Event.warnx Message.listener_starting], exit_code := 0 }
      else if word = "stop" then
        if g.airdog_running then
          some (airdog_main_tail word { g with airdog_running := false }
            [Event.warnx Message.stop])
        else
          some { globals := g, events := [Event.errx 1 Message.not_running], exit_code := 1 }
      else
        some (airdog_main_tail word g [])

/-- The call ended on the path of an unrecognized command: the warning
`unrecognized command`, the usage line, exit code 1. -/
def MainResult.unrecognized (r : MainResult) : Bool :=
  r.events.drop (r.events.length - 2) ==
      [Event.warnx Message.unrecognized_command, Event.errx 1 Message.usage_line] &&
    r.exit_code == 1

/-- All `work_queue` calls among the events, with worker and delay. -/
def queue_calls : List Event → List (Worker × Nat)
  | [] => []
  | Event.work_queue w d :: es => (w, d) :: queue_calls es
  | _ :: es => queue_calls es

/-- The ticks `airdog_start` got queued: `work_queue` queues the worker exactly
when it returns zero, so a call that returned anything else queued nothing. -/
def start_queued (e : StartEnv) (ev : List Event) : List Nat :=
  if e.ret = 0 then rescheduled ev else []

/-- One call of `send_set_mode`: what it reads and its two arguments. -/
structure SendCall where
  env : SendEnv
  base_mode : Nat
  custom_main_mode : Int
  deriving DecidableEq

/-- Consecutive calls of `send_set_mode`, each on the `cmd_pub` the previous one
left: for every call the `cmd_pub` after it and its events. -/
def send_calls (K : Consts) : Int → List SendCall → List (Int × List Event)
  | _, [] => []
  | cmd_pub, c :: cs =>
    let r := send_set_mode K c.env cmd_pub c.base_mode c.custom_main_mode
    r :: send_calls K r.1 cs

/-- The advertisements among the events. -/
def advertised : List Event → List vehicle_command_s
  | [] => []
  | Event.orb_advertise c :: es => c :: advertised es
  | _ :: es => advertised es

/-- The publications among the events, with the handle they were made on. -/
def published : List Event → List (Int × vehicle_command_s)
  | [] => []
  | Event.orb_publish h c :: es => (h, c) :: published es
  | _ :: es => published es

/-- A sample session with a pressed button and a copied status, left running. -/
def samplePressed : Globals :=
  (airdog_cycle sampleConsts (sampleTick 5 0) sampleStarted).1

/-! ## Lemmas on one tick -/

theorem emitted_append (a b : List Event) : emitted (a ++ b) = emitted a ++ emitted b := by
  induction a with
  | nil => rfl
  | cons e es ih => cases e <;> simp [emitted, ih]

theorem emitted_send (K : Consts) (e : SendEnv) (cp : Int) (bm : Nat) (m : Int) :
    emitted (send_set_mode K e cp bm m).2 = [fill_command K e.state bm m] := by
  unfold send_set_mode
  split_ifs <;> rfl

/-- After a tick `button_pressed` is the level sampled on it; the rest of the
button record is untouched. -/
theorem cycle_button (K : Consts) (t : Tick) (g : Globals) :
    (airdog_cycle K t g).1.airdog_data.follow_button =
      { g.airdog_data.follow_button with
        button_pressed := button_low g.airdog_data t.gpio_values } := by
  obtain ⟨⟨bm, fd, inp, ⟨st, pin, bp⟩, status, sub, ccm⟩, run, cp⟩ := g
  obtain ⟨upd, ns, gv, se⟩ := t
  cases upd <;> cases bp <;> cases run <;>
    by_cases h : gv % 4294967296 &&& 1 <<< pin.toNat = 0 <;>
    simp [airdog_cycle, button_low, h]

/-- A tick writes the status snapshot and `button_pressed` and nothing else of
the session record. -/
theorem cycle_data (K : Consts) (t : Tick) (g : Globals) :
    (airdog_cycle K t g).1.airdog_data =
      { g.airdog_data with
        airdog_status := snapshot t g
        follow_button := { g.airdog_data.follow_button with
          button_pressed := button_low g.airdog_data t.gpio_values } } := by
  obtain ⟨⟨bm, fd, inp, ⟨st, pin, bp⟩, status, sub, ccm⟩, run, cp⟩ := g
  obtain ⟨upd, ns, gv, se⟩ := t
  cases upd <;> cases bp <;> cases run <;>
    by_cases h : gv % 4294967296 &&& 1 <<< pin.toNat = 0 <;>
    simp [airdog_cycle, button_low, snapshot, h]

theorem cycle_running (K : Consts) (t : Tick) (g : Globals) :
    (airdog_cycle K t g).1.airdog_running = g.airdog_running := by
  unfold airdog_cycle
  split_ifs <;> simp_all

/-- The commands of a tick: those of the resolver on a press edge, none on any
other tick. -/
theorem cycle_emitted (K : Consts) (t : Tick) (g : Globals) :
    emitted (airdog_cycle K t g).2 =
      if button_low g.airdog_data t.gpio_values = true ∧
          g.airdog_data.follow_button.button_pressed = false then
        (spec_nextMode K (custom_mode_of (snapshot t g))).toList.map
          (fill_command K t.send.state g.airdog_data.base_mode)
      else [] := by
  obtain ⟨⟨bm, fd, inp, ⟨st, pin, bp⟩, status, sub, ccm⟩, run, cp⟩ := g
  obtain ⟨upd, ns, gv, se⟩ := t
  cases upd <;> cases bp <;> cases run <;>
    by_cases h : gv % 4294967296 &&& 1 <<< pin.toNat = 0 <;>
    simp [airdog_cycle, button_low, h, snapshot, spec_nextMode, emitted_append, emitted] <;>
    split_ifs <;> simp [emitted_send, emitted]

/-- The provider handle changes only when a command is advertised: on a press
edge with a recognized mode code while `cmd_pub` is negative. -/
theorem cycle_cmd_pub (K : Consts) (t : Tick) (g : Globals) :
    (airdog_cycle K t g).1.cmd_pub =
      if (button_low g.airdog_data t.gpio_values = true ∧
          g.airdog_data.follow_button.button_pressed = false) ∧
          (spec_nextMode K (custom_mode_of (snapshot t g))).isSome = true ∧
          g.cmd_pub < 0 then
        t.send.advert
      else g.cmd_pub := by
  obtain ⟨⟨bm, fd, inp, ⟨st, pin, bp⟩, status, sub, ccm⟩, run, cp⟩ := g
  obtain ⟨upd, ns, gv, se⟩ := t
  cases upd <;> cases bp <;> cases run <;>
    by_cases h : gv % 4294967296 &&& 1 <<< pin.toNat = 0 <;>
    simp [airdog_cycle, button_low, h, snapshot, spec_nextMode, send_set_mode] <;>
    split_ifs <;> simp_all

theorem button_low_cycle (K : Consts) (t : Tick) (g : Globals) (v : Nat) :
    button_low (airdog_cycle K t g).1.airdog_data v = button_low g.airdog_data v := by
  simp [button_low, cycle_button]

/-! ## Lemmas on runs -/

/-- Every entry of a run is one execution of `airdog_cycle`, and the button pin
it tests is the one the run started with. -/
theorem run_log (K : Consts) (ticks : List Tick) :
    ∀ (g : Globals) (l : TickLog), l ∈ airdog_run K g ticks →
      l.after = (airdog_cycle K l.tick l.before).1 ∧
      l.events = (airdog_cycle K l.tick l.before).2 ∧
      l.tick ∈ ticks ∧
      ∀ v, button_low l.before.airdog_data v = button_low g.airdog_data v := by
  induction ticks with
  | nil => intro g l hl; simp [airdog_run] at hl
  | cons t ts ih =>
    intro g l hl
    simp only [airdog_run, List.mem_cons] at hl
    rcases hl with rfl | hl
    · simp
    · obtain ⟨h1, h2, h3, h4⟩ := ih _ l hl
      refine ⟨h1, h2, List.mem_cons_of_mem _ h3, fun v => ?_⟩
      rw [h4 v, button_low_cycle]

/-- Ticks without a status update leave the stored snapshot as it is. -/
theorem run_stale (K : Consts) (ticks : List Tick) :
    ∀ g : Globals, (∀ t ∈ ticks, t.updated = false) →
      ∀ l ∈ airdog_run K g ticks,
        l.before.airdog_data.airdog_status = g.airdog_data.airdog_status ∧
        l.after.airdog_data.airdog_status = g.airdog_data.airdog_status := by
  induction ticks with
  | nil => intro g _ l hl; simp [airdog_run] at hl
  | cons t ts ih =>
    intro g h l hl
    have ht := h t (List.mem_cons_self _ _)
    have hs : (airdog_cycle K t g).1.airdog_data.airdog_status =
        g.airdog_data.airdog_status := by
      rw [cycle_data]; simp [snapshot, ht]
    simp only [airdog_run, List.mem_cons] at hl
    rcases hl with rfl | hl
    · exact ⟨rfl, hs⟩
    · have := ih _ (fun u hu => h u (List.mem_cons_of_mem _ hu)) l hl
      rw [hs] at this
      exact this

theorem run_append (K : Consts) (xs ys : List Tick) :
    ∀ g : Globals, airdog_run K g (xs ++ ys) =
      airdog_run K g xs ++ airdog_run K (airdog_after K g xs) ys := by
  induction xs with
  | nil => intro g; rfl
  | cons t ts ih => intro g; simp [airdog_run, airdog_after, ih]

theorem run_length (K : Consts) (ticks : List Tick) :
    ∀ g : Globals, (airdog_run K g ticks).length = ticks.length := by
  induction ticks with
  | nil => intro g; rfl
  | cons t ts ih => intro g; simp [airdog_run, ih]

/-- While the level stays at the stored state, no tick changes the button and
none emits. -/
theorem run_steady (K : Consts) (ticks : List Tick) :
    ∀ g : Globals,
      (∀ t ∈ ticks, button_low g.airdog_data t.gpio_values =
        g.airdog_data.follow_button.button_pressed) →
      run_emitted (airdog_run K g ticks) = [] ∧
      (∀ l ∈ airdog_run K g ticks, l.changed = false ∧
        l.after.airdog_data.follow_button.button_pressed =
          g.airdog_data.follow_button.button_pressed) := by
  induction ticks with
  | nil => intro g _; simp [airdog_run, run_emitted]
  | cons t ts ih =>
    intro g h
    have ht := h t (List.mem_cons_self _ _)
    have hbp : (airdog_cycle K t g).1.airdog_data.follow_button.button_pressed =
        g.airdog_data.follow_button.button_pressed := by
      rw [cycle_button]; exact ht
    have hem : emitted (airdog_cycle K t g).2 = [] := by
      rw [cycle_emitted]
      apply if_neg
      rintro ⟨h1, h2⟩
      rw [h1, h2] at ht
      exact Bool.noConfusion ht
    obtain ⟨ih1, ih2⟩ := ih (airdog_cycle K t g).1 (fun t' ht' => by
      rw [button_low_cycle, hbp]; exact h t' (List.mem_cons_of_mem _ ht'))
    refine ⟨by simp [airdog_run, run_emitted, hem, ih1], ?_⟩
    intro l hl
    simp only [airdog_run, List.mem_cons] at hl
    rcases hl with rfl | hl
    · simp [TickLog.changed, hbp]
    · have := ih2 l hl
      rw [hbp] at this
      exact this

theorem after_button_low (K : Consts) (ticks : List Tick) :
    ∀ (g : Globals) (v : Nat),
      button_low (airdog_after K g ticks).airdog_data v = button_low g.airdog_data v := by
  induction ticks with
  | nil => intro g v; rfl
  | cons t ts ih => intro g v; simp [airdog_after, ih, button_low_cycle]

/-- In a run of ticks at the pressed level only the first can change the button. -/
theorem pressed_run_first (K : Consts) (run : List Tick) (g : Globals)
    (h : ∀ t ∈ run, button_low g.airdog_data t.gpio_values = true)
    (i : Nat) (l : TickLog) (hi : (airdog_run K g run)[i]? = some l)
    (hc : l.changed = true) : i = 0 := by
  cases run with
  | nil => simp [airdog_run] at hi
  | cons t ts =>
    cases i with
    | zero => rfl
    | succ j =>
      exfalso
      simp only [airdog_run, List.getElem?_cons_succ] at hi
      have hbp : (airdog_cycle K t g).1.airdog_data.follow_button.button_pressed = true := by
        rw [cycle_button]; exact h t (List.mem_cons_self _ _)
      have := ((run_steady K ts (airdog_cycle K t g).1 (fun u hu => by
        rw [button_low_cycle, hbp]; exact h u (List.mem_cons_of_mem _ hu))).2 l
          (List.getElem?_mem hi)).1
      rw [this] at hc
      exact Bool.noConfusion hc

theorem pressed_run_count (K : Consts) (run : List Tick) (g : Globals)
    (h : ∀ t ∈ run, button_low g.airdog_data t.gpio_values = true) :
    (airdog_run K g run).countP TickLog.changed ≤ 1 := by
  cases run with
  | nil => simp [airdog_run]
  | cons t ts =>
    have hbp : (airdog_cycle K t g).1.airdog_data.follow_button.button_pressed = true := by
      rw [cycle_button]; exact h t (List.mem_cons_self _ _)
    have hs := (run_steady K ts (airdog_cycle K t g).1 (fun u hu => by
      rw [button_low_cycle, hbp]; exact h u (List.mem_cons_of_mem _ hu))).2
    have h0 : (airdog_run K (airdog_cycle K t g).1 ts).countP TickLog.changed = 0 := by
      rw [List.countP_eq_zero]
      intro l hl
      simp [(hs l hl).1]
    simp only [airdog_run, List.countP_cons, h0]
    split_ifs <;> omega

/-! ## Lemmas on sessions -/

theorem start_base_mode (e : StartEnv) (g : Globals) :
    (airdog_start e g).1.airdog_data.base_mode = 129 := by
  by_cases h1 : e.fd < 0 <;> by_cases h2 : e.ret = 0 <;>
    simp [airdog_start, h1, h2, MAV_MODE_FLAG_SAFETY_ARMED, MAV_MODE_FLAG_CUSTOM_MODE_ENABLED]

theorem session_base_mode (K : Consts) (steps : List Step) :
    ∀ g : Globals,
      (airdog_session K g steps).airdog_data.base_mode = g.airdog_data.base_mode := by
  induction steps with
  | nil => intro g; rfl
  | cons s ss ih =>
    intro g
    cases s with
    | tick t => simp [airdog_session, ih, cycle_data]
    | set_running b => simp [airdog_session, ih]

/-- The whole effect of `airdog_start`, by outcome of `open` and `work_queue`. -/
theorem start_result (e : StartEnv) (g : Globals) :
    airdog_start e g =
      if e.fd < 0 then
        ({ airdog_data := { g.airdog_data with
              base_mode := 129, gpio_fd := e.fd, inputs := 1,
              follow_button := { state := PAUSE, pin := 0, button_pressed := false } },
           airdog_running := false, cmd_pub := g.cmd_pub },
          [Event.open_gpio])
      else
        ({ airdog_data :=
              { base_mode := 129, gpio_fd := e.fd, inputs := 1,
                follow_button := { state := PAUSE, pin := 0, button_pressed := false },
                airdog_status := { custom_mode := 0 }, airdog_status_sub := e.sub,
                current_custom_mode := g.airdog_data.current_custom_mode },
           airdog_running := if e.ret ≠ 0 then false else g.airdog_running,
           cmd_pub := g.cmd_pub },
          [Event.open_gpio, Event.ioctl e.fd GpioRequest.GPIO_SET_INPUT 1,
            Event.orb_subscribe_airdog_status, Event.work_queue Worker.airdog_cycle 0]) := by
  by_cases h1 : e.fd < 0 <;> by_cases h2 : e.ret = 0 <;>
    simp [airdog_start, h1, h2, MAV_MODE_FLAG_SAFETY_ARMED, MAV_MODE_FLAG_CUSTOM_MODE_ENABLED]

/-- Ticks and writes of the running flag keep every member of the session
record but the status snapshot and `button_pressed`. -/
theorem session_frame (K : Consts) (steps : List Step) :
    ∀ g : Globals,
      (airdog_session K g steps).airdog_data.base_mode = g.airdog_data.base_mode ∧
      (airdog_session K g steps).airdog_data.gpio_fd = g.airdog_data.gpio_fd ∧
      (airdog_session K g steps).airdog_data.inputs = g.airdog_data.inputs ∧
      (airdog_session K g steps).airdog_data.follow_button.pin =
        g.airdog_data.follow_button.pin := by
  induction steps with
  | nil => intro g; exact ⟨rfl, rfl, rfl, rfl⟩
  | cons s ss ih =>
    intro g
    cases s with
    | tick t =>
      have := ih (airdog_cycle K t g).1
      simp only [cycle_data] at this
      simpa [airdog_session] using this
    | set_running b => simpa [airdog_session] using ih { g with airdog_running := b }

/-- With the button on pin 0 the level test reads bit 0 of the GPIO word. -/
theorem button_low_pin_zero (priv : airdog_app_s) (v : Nat)
    (h : priv.follow_button.pin = 0) : button_low priv v = !v.testBit 0 := by
  have h2 : v % 4294967296 % 2 = v % 2 := Nat.mod_mod_of_dvd v (by norm_num)
  simp only [button_low, h, Int.toNat_zero, Nat.shiftLeft_zero, Nat.and_one_is_mod, h2,
    Nat.testBit_zero]
  rcases Nat.mod_two_eq_zero_or_one v with h0 | h0 <;> simp [h0]

/-- A tick reads the GPIO word through the level test only. -/
theorem cycle_gpio_congr (K : Consts) (t : Tick) (g : Globals) (v1 v2 : Nat)
    (h : button_low g.airdog_data v1 = button_low g.airdog_data v2) :
    airdog_cycle K { t with gpio_values := v1 } g =
      airdog_cycle K { t with gpio_values := v2 } g := by
  obtain ⟨upd, ns, gv, se⟩ := t
  have hp : ∀ v, button_low
      (if upd = true then { g.airdog_data with airdog_status := ns } else g.airdog_data) v =
      button_low g.airdog_data v := by
    intro v
    cases upd <;> rfl
  simp only [airdog_cycle, hp, h]

/-- Once `cmd_pub` is not negative every call publishes on it and leaves it. -/
theorem send_calls_published (K : Consts) (handle : Int) (h : 0 ≤ handle)
    (cs : List SendCall) :
    send_calls K handle cs = cs.map (fun c =>
      (handle, [Event.orb_subscribe_vehicle_status,
        Event.orb_publish handle (fill_command K c.env.state c.base_mode c.custom_main_mode)])) := by
  induction cs with
  | nil => rfl
  | cons c cs ih =>
    have hs : send_set_mode K c.env handle c.base_mode c.custom_main_mode =
        (handle, [Event.orb_subscribe_vehicle_status,
          Event.orb_publish handle
            (fill_command K c.env.state c.base_mode c.custom_main_mode)]) := by
      simp [send_set_mode, not_lt.mpr h]
    simp only [send_calls, hs, ih, List.map_cons]

/-! ## The press edge -/

/-- C1: on a tick with `button_pressed = false` and the button bit low,
`airdog_cycle` emits exactly one set-mode command with target EASY when the
snapshot's mode code is FOLLOW, with target FOLLOW when it is EASY, with target
FOLLOW when it is SEATBELT, and emits no command for any other mode code. -/
theorem airdog_cycle_press_targets (K : Consts) (hK : K.distinct) (t : Tick) (g : Globals)
    (hb : g.airdog_data.follow_button.button_pressed = false)
    (hl : button_low g.airdog_data t.gpio_values = true) :
    (custom_mode_of (snapshot t g) = K.PX4_CUSTOM_MAIN_MODE_FOLLOW →
      (emitted (airdog_cycle K t g).2).map (fun c => (c.command, c.param2)) =
        [(K.VEHICLE_CMD_DO_SET_MODE, K.PX4_CUSTOM_MAIN_MODE_EASY)]) ∧
    (custom_mode_of (snapshot t g) = K.PX4_CUSTOM_MAIN_MODE_EASY →
      (emitted (airdog_cycle K t g).2).map (fun c => (c.command, c.param2)) =
        [(K.VEHICLE_CMD_DO_SET_MODE, K.PX4_CUSTOM_MAIN_MODE_FOLLOW)]) ∧
    (custom_mode_of (snapshot t g) = K.PX4_CUSTOM_MAIN_MODE_SEATBELT →
      (emitted (airdog_cycle K t g).2).map (fun c => (c.command, c.param2)) =
        [(K.VEHICLE_CMD_DO_SET_MODE, K.PX4_CUSTOM_MAIN_MODE_FOLLOW)]) ∧
    (¬ K.recognized (custom_mode_of (snapshot t g)) →
      emitted (airdog_cycle K t g).2 = []) := by
  obtain ⟨hFE, hFS, hES⟩ := hK
  rw [cycle_emitted, if_pos ⟨hl, hb⟩]
  refine ⟨fun h => ?_, fun h => ?_, fun h => ?_, fun h => ?_⟩
  · simp [spec_nextMode, h, fill_command]
  · simp [spec_nextMode, h, fill_command, Ne.symm hFE]
  · simp [spec_nextMode, h, fill_command, Ne.symm hFS, Ne.symm hES]
  · simp only [Consts.recognized, not_or] at h
    simp [spec_nextMode, h.1, h.2.1, h.2.2]

/-- Scenarios A and B and an unrecognized code, evaluated on the sample session. -/
theorem airdog_cycle_press_targets_witness :
    sampleConsts.distinct ∧
    sampleStarted.airdog_data.follow_button.button_pressed = false ∧
    button_low sampleStarted.airdog_data (sampleTick 5 0).gpio_values = true ∧
    (emitted (airdog_cycle sampleConsts (sampleTick 5 0) sampleStarted).2).map
      (fun c => (c.command, c.param2)) = [(176, 3)] :=
  ⟨by decide, by decide, by decide,
    (airdog_cycle_press_targets sampleConsts (by decide) (sampleTick 5 0) sampleStarted
      (by decide) (by decide)).1 (by decide)⟩

/-- C2: the mode resolution of a press edge: for a mode code among FOLLOW, EASY
and SEATBELT exactly one target mode is produced and it differs from the code;
for every other code none is produced. -/
theorem airdog_cycle_resolution (K : Consts) (hK : K.distinct) (t : Tick) (g : Globals)
    (m : Int) (hm : custom_mode_of (snapshot t g) = m)
    (hb : g.airdog_data.follow_button.button_pressed = false)
    (hl : button_low g.airdog_data t.gpio_values = true) :
    (K.recognized m →
      ∃ target, (emitted (airdog_cycle K t g).2).map (fun c => c.param2) = [target] ∧
        target ≠ m) ∧
    (¬ K.recognized m →
      (emitted (airdog_cycle K t g).2).map (fun c => c.param2) = []) := by
  obtain ⟨hFE, hFS, hES⟩ := hK
  rw [cycle_emitted, if_pos ⟨hl, hb⟩, hm]
  constructor
  · rintro (h | h | h)
    · exact ⟨K.PX4_CUSTOM_MAIN_MODE_EASY, by simp [spec_nextMode, h, fill_command],
        by rw [h]; exact Ne.symm hFE⟩
    · exact ⟨K.PX4_CUSTOM_MAIN_MODE_FOLLOW,
        by simp [spec_nextMode, h, fill_command, Ne.symm hFE], by rw [h]; exact hFE⟩
    · exact ⟨K.PX4_CUSTOM_MAIN_MODE_FOLLOW,
        by simp [spec_nextMode, h, fill_command, Ne.symm hFS, Ne.symm hES],
        by rw [h]; exact hFS⟩
  · intro h
    simp only [Consts.recognized, not_or] at h
    simp [spec_nextMode, h.1, h.2.1, h.2.2]

/-- The resolution evaluated at SEATBELT (code 2) on the sample session. -/
theorem airdog_cycle_resolution_witness :
    ∃ target, (emitted (airdog_cycle sampleConsts (sampleTick 2 0) sampleStarted).2).map
      (fun c => c.param2) = [target] ∧ target ≠ 2 :=
  (airdog_cycle_resolution sampleConsts (by decide) (sampleTick 2 0) sampleStarted 2
    (by decide) (by decide) (by decide)).1 (by decide)

/-! ## Debounce -/

/-- C3, as amended: from the released state, N >= 1 consecutive ticks at the
pressed level emit the commands of the first tick only: exactly one when the
mode code of the snapshot on the first tick is FOLLOW, EASY or SEATBELT, none
otherwise. -/
theorem held_press_emits_first_only (K : Consts) (g : Globals) (t : Tick) (ticks : List Tick)
    (hb : g.airdog_data.follow_button.button_pressed = false)
    (hl : ∀ u ∈ t :: ticks, button_low g.airdog_data u.gpio_values = true) :
    run_emitted (airdog_run K g (t :: ticks)) = emitted (airdog_cycle K t g).2 ∧
    (run_emitted (airdog_run K g (t :: ticks))).length =
      if K.recognized (custom_mode_of (snapshot t g)) then 1 else 0 := by
  have ht := hl t (List.mem_cons_self _ _)
  have hbp : (airdog_cycle K t g).1.airdog_data.follow_button.button_pressed = true := by
    rw [cycle_button]; exact ht
  have hrest := (run_steady K ticks (airdog_cycle K t g).1 (fun u hu => by
    rw [button_low_cycle, hbp]; exact hl u (List.mem_cons_of_mem _ hu))).1
  have h1 : run_emitted (airdog_run K g (t :: ticks)) = emitted (airdog_cycle K t g).2 := by
    simp [airdog_run, run_emitted, hrest]
  refine ⟨h1, ?_⟩
  rw [h1, cycle_emitted, if_pos ⟨ht, hb⟩]
  unfold spec_nextMode Consts.recognized
  split_ifs <;> simp_all

/-- Two held ticks at FOLLOW on the sample session emit one command. -/
theorem held_press_emits_first_only_witness :
    sampleStarted.airdog_data.follow_button.button_pressed = false ∧
    (run_emitted (airdog_run sampleConsts sampleStarted
      (sampleTick 5 0 :: [sampleTick 5 0]))).length = 1 :=
  ⟨by decide,
    (held_press_emits_first_only sampleConsts sampleStarted (sampleTick 5 0) [sampleTick 5 0]
      (by decide) (by decide)).2⟩

/-- C3 as stated fails: from the released state, two ticks at the pressed level
while the status reports the unrecognized mode code 9999 emit no command. -/
theorem held_press_emits_exactly_one_counterexample :
    sampleStarted.airdog_data.follow_button.button_pressed = false ∧
    (∀ u ∈ [sampleTick 9999 0, sampleTick 9999 0],
      button_low sampleStarted.airdog_data u.gpio_values = true) ∧
    (run_emitted (airdog_run sampleConsts sampleStarted
      [sampleTick 9999 0, sampleTick 9999 0])).length ≠ 1 := by
  decide

/-- C4: from the released state, three ticks sampled pressed, released, pressed
give exactly two press edges (on the first and the third tick) and at most two
emitted commands, whatever the status inputs are. -/
theorem press_release_press (K : Consts) (g : Globals) (t1 t2 t3 : Tick)
    (hb : g.airdog_data.follow_button.button_pressed = false)
    (h1 : button_low g.airdog_data t1.gpio_values = true)
    (h2 : button_low g.airdog_data t2.gpio_values = false)
    (h3 : button_low g.airdog_data t3.gpio_values = true) :
    (airdog_run K g [t1, t2, t3]).map TickLog.press_edge = [true, false, true] ∧
    (airdog_run K g [t1, t2, t3]).countP TickLog.press_edge = 2 ∧
    (run_emitted (airdog_run K g [t1, t2, t3])).length ≤ 2 := by
  have e : ∀ (u : Tick) (x : Globals), (emitted (airdog_cycle K u x).2).length ≤ 1 := by
    intro u x
    rw [cycle_emitted]
    split_ifs
    · cases spec_nextMode K (custom_mode_of (snapshot u x)) <;> simp
    · simp
  have a1 : (airdog_cycle K t1 g).1.airdog_data.follow_button.button_pressed = true := by
    rw [cycle_button]; exact h1
  have a2 : (airdog_cycle K t2 (airdog_cycle K t1 g).1).1.airdog_data.follow_button.button_pressed
      = false := by
    rw [cycle_button, button_low_cycle]; exact h2
  have a3 : (airdog_cycle K t3 (airdog_cycle K t2 (airdog_cycle K t1 g).1).1).1.airdog_data.follow_button.button_pressed
      = true := by
    rw [cycle_button, button_low_cycle, button_low_cycle]; exact h3
  have e2 : emitted (airdog_cycle K t2 (airdog_cycle K t1 g).1).2 = [] := by
    rw [cycle_emitted, button_low_cycle, h2]; simp
  have m : (airdog_run K g [t1, t2, t3]).map TickLog.press_edge = [true, false, true] := by
    simp [airdog_run, TickLog.press_edge, hb, a1, a2, a3]
  refine ⟨m, ?_, ?_⟩
  · simp [airdog_run, List.countP_cons, TickLog.press_edge, hb, a1, a2, a3]
  · have := e t1 g
    have := e t3 (airdog_cycle K t2 (airdog_cycle K t1 g).1).1
    simp only [airdog_run, run_emitted, e2, List.length_append, List.length_nil,
      List.append_nil]
    omega

/-- The three sample ticks pressed, released, pressed give two edges. -/
theorem press_release_press_witness :
    (airdog_run sampleConsts sampleStarted
      [sampleTick 5 0, sampleTick 5 1, sampleTick 3 0]).countP TickLog.press_edge = 2 :=
  (press_release_press sampleConsts sampleStarted (sampleTick 5 0) (sampleTick 5 1)
    (sampleTick 3 0) (by decide) (by decide) (by decide) (by decide)).2.1

/-! ## The status snapshot -/

/-- C5: over any number of consecutive ticks on which the status channel reports
no update, every tick leaves the stored status snapshot as it was, and a press
edge on any of them emits the target that the resolver gives for the mode code
of that stored snapshot (the value last copied), one command or none. -/
theorem stale_ticks_keep_snapshot (K : Consts) (g : Globals) (ticks : List Tick)
    (hst : ∀ t ∈ ticks, t.updated = false) (l : TickLog)
    (hl : l ∈ airdog_run K g ticks) :
    l.before.airdog_data.airdog_status = g.airdog_data.airdog_status ∧
    l.after.airdog_data.airdog_status = g.airdog_data.airdog_status ∧
    (l.press_edge = true →
      (emitted l.events).map (fun c => c.param2) =
        (spec_nextMode K (custom_mode_of g.airdog_data.airdog_status)).toList) := by
  obtain ⟨hb, ha⟩ := run_stale K ticks g hst l hl
  obtain ⟨h1, h2, h3, _⟩ := run_log K ticks g l hl
  refine ⟨hb, ha, fun he => ?_⟩
  have hu := hst l.tick h3
  simp only [TickLog.press_edge, Bool.and_eq_true, beq_iff_eq] at he
  obtain ⟨he1, he2⟩ := he
  rw [h1, cycle_button] at he2
  rw [h2, cycle_emitted, if_pos ⟨he2, he1⟩]
  have hs : snapshot l.tick l.before = g.airdog_data.airdog_status := by
    simp [snapshot, hu, hb]
  rw [hs]
  cases spec_nextMode K (custom_mode_of g.airdog_data.airdog_status) <;>
    simp [fill_command]

/-- After mode code 5 was copied, a press on the second stale tick resolves to
EASY (3), not to what a zero snapshot would give. -/
theorem stale_ticks_keep_snapshot_witness :
    (∀ t ∈ [staleTick 1, staleTick 0], t.updated = false) ∧
    sampleStaleLog ∈ airdog_run sampleConsts sampleFollow [staleTick 1, staleTick 0] ∧
    sampleStaleLog.press_edge = true ∧
    sampleStaleLog.after.airdog_data.airdog_status = { custom_mode := 5 * 65536 + 17 } ∧
    (emitted sampleStaleLog.events).map (fun c => c.param2) = [3] :=
  ⟨by decide, by decide, by decide,
    (stale_ticks_keep_snapshot sampleConsts sampleFollow [staleTick 1, staleTick 0]
      (by decide) sampleStaleLog (by decide)).2.1,
    (stale_ticks_keep_snapshot sampleConsts sampleFollow [staleTick 1, staleTick 0]
      (by decide) sampleStaleLog (by decide)).2.2 (by decide)⟩

/-- C6: a press edge seen while the snapshot's mode code is unrecognized is
still recognized (`button_pressed` goes from false to true), emits no command
and raises nothing: the tick logs the press and ends as every tick does. -/
theorem unrecognized_press_is_ignored (K : Consts) (t : Tick) (g : Globals)
    (hb : g.airdog_data.follow_button.button_pressed = false)
    (hl : button_low g.airdog_data t.gpio_values = true)
    (hm : ¬ K.recognized (custom_mode_of (snapshot t g))) :
    (airdog_cycle K t g).1.airdog_data.follow_button.button_pressed = true ∧
    emitted (airdog_cycle K t g).2 = [] ∧
    (airdog_cycle K t g).1.cmd_pub = g.cmd_pub ∧
    (airdog_cycle K t g).2 =
      [Event.warnx (Message.button_1_pressed g.airdog_data.current_custom_mode),
        if g.airdog_running then
          Event.work_queue Worker.airdog_cycle (K.USEC2TICK 100000)
        else
          Event.ioctl g.airdog_data.gpio_fd GpioRequest.GPIO_CLEAR g.airdog_data.inputs] := by
  simp only [Consts.recognized, not_or] at hm
  obtain ⟨m1, m2, m3⟩ := hm
  refine ⟨by rw [cycle_button]; exact hl, ?_, ?_, ?_⟩
  · rw [cycle_emitted, if_pos ⟨hl, hb⟩]
    simp [spec_nextMode, m1, m2, m3]
  · rw [cycle_cmd_pub]
    simp [spec_nextMode, m1, m2, m3]
  · obtain ⟨⟨bm, fd, inp, ⟨st, pin, bp⟩, status, sub, ccm⟩, run, cp⟩ := g
    obtain ⟨upd, ns, gv, se⟩ := t
    cases upd <;> cases run <;>
      simp_all [airdog_cycle, button_low, snapshot]

/-- Scenario C on the sample session: mode code 9999, button pressed. -/
theorem unrecognized_press_is_ignored_witness :
    ¬ sampleConsts.recognized (custom_mode_of (snapshot (sampleTick 9999 0) sampleStarted)) ∧
    (airdog_cycle sampleConsts (sampleTick 9999 0) sampleStarted).1.airdog_data.follow_button.button_pressed
      = true ∧
    emitted (airdog_cycle sampleConsts (sampleTick 9999 0) sampleStarted).2 = [] :=
  ⟨by decide,
    (unrecognized_press_is_ignored sampleConsts (sampleTick 9999 0) sampleStarted
      (by decide) (by decide) (by decide)).1,
    (unrecognized_press_is_ignored sampleConsts (sampleTick 9999 0) sampleStarted
      (by decide) (by decide) (by decide)).2.1⟩

/-! ## Ticks that are not a press edge -/

/-- C7: a tick that is not a press edge emits no command.  Released level with
`button_pressed` true: the tick clears `button_pressed` and, the status snapshot
apart, writes nothing else.  Pressed level with `button_pressed` true, or
released level with `button_pressed` false: the button record is unchanged. -/
theorem non_edge_tick (K : Consts) (t : Tick) (g : Globals) :
    (¬ (button_low g.airdog_data t.gpio_values = true ∧
        g.airdog_data.follow_button.button_pressed = false) →
      emitted (airdog_cycle K t g).2 = [] ∧ (airdog_cycle K t g).1.cmd_pub = g.cmd_pub) ∧
    (button_low g.airdog_data t.gpio_values = false →
      g.airdog_data.follow_button.button_pressed = true →
      (airdog_cycle K t g).1.airdog_data =
        { g.airdog_data with
          airdog_status := snapshot t g
          follow_button := { g.airdog_data.follow_button with button_pressed := false } }) ∧
    (button_low g.airdog_data t.gpio_values = true →
      g.airdog_data.follow_button.button_pressed = true →
      (airdog_cycle K t g).1.airdog_data.follow_button = g.airdog_data.follow_button) ∧
    (button_low g.airdog_data t.gpio_values = false →
      g.airdog_data.follow_button.button_pressed = false →
      (airdog_cycle K t g).1.airdog_data.follow_button = g.airdog_data.follow_button) := by
  refine ⟨fun h => ⟨by rw [cycle_emitted, if_neg h], ?_⟩, fun h1 h2 => ?_, fun h1 h2 => ?_,
    fun h1 h2 => ?_⟩
  · rw [cycle_cmd_pub]
    exact if_neg (fun hh => h hh.1)
  · rw [cycle_data, h1]
  · rw [cycle_button, h1, ← h2]
  · rw [cycle_button, h1, ← h2]

/-- A released tick on a pressed button of the sample session. -/
theorem non_edge_tick_witness :
    (airdog_cycle sampleConsts (sampleTick 5 1)
      (airdog_cycle sampleConsts (sampleTick 5 0) sampleStarted).1).1.airdog_data.follow_button
      = sampleStarted.airdog_data.follow_button ∧
    emitted (airdog_cycle sampleConsts (sampleTick 5 1)
      (airdog_cycle sampleConsts (sampleTick 5 0) sampleStarted).1).2 = [] :=
  ⟨by
      rw [(non_edge_tick sampleConsts (sampleTick 5 1)
        (airdog_cycle sampleConsts (sampleTick 5 0) sampleStarted).1).2.1
          (by decide) (by decide)]
      decide,
    ((non_edge_tick sampleConsts (sampleTick 5 1)
      (airdog_cycle sampleConsts (sampleTick 5 0) sampleStarted).1).1 (by decide)).1⟩

/-- C8: over every sequence of ticks, (1) `button_pressed` changes on a tick
exactly when the level sampled on it is the opposite of the stored state, and
after the tick it equals that level; (2) through any run of ticks whose level
equals the stored state it keeps its value; (3) within any run of consecutive
ticks at the pressed level, anywhere in the sequence, it changes on no tick but
the first of the run, hence at most once. -/
theorem button_state_invariant (K : Consts) (g : Globals) (pre run post : List Tick) :
    (∀ l ∈ airdog_run K g (pre ++ run ++ post),
      (l.changed = true ↔ l.raw_pressed ≠ l.before.airdog_data.follow_button.button_pressed) ∧
      l.after.airdog_data.follow_button.button_pressed = l.raw_pressed) ∧
    ((∀ t ∈ run, button_low g.airdog_data t.gpio_values =
        (airdog_after K g pre).airdog_data.follow_button.button_pressed) →
      ∀ l ∈ airdog_run K (airdog_after K g pre) run,
        l.changed = false ∧
        l.after.airdog_data.follow_button.button_pressed =
          (airdog_after K g pre).airdog_data.follow_button.button_pressed) ∧
    ((∀ t ∈ run, button_low g.airdog_data t.gpio_values = true) →
      (∀ (i : Nat) (l : TickLog), i < run.length →
        (airdog_run K g (pre ++ run ++ post))[pre.length + i]? = some l →
        l.changed = true → i = 0) ∧
      (airdog_run K (airdog_after K g pre) run).countP TickLog.changed ≤ 1) := by
  refine ⟨fun l hl => ?_, fun h => ?_, fun h => ⟨fun i l hi hl hc => ?_, ?_⟩⟩
  · obtain ⟨h1, _, _, _⟩ := run_log K _ g l hl
    have hb : l.after.airdog_data.follow_button.button_pressed = l.raw_pressed := by
      rw [h1, cycle_button]; rfl
    refine ⟨?_, hb⟩
    simp only [TickLog.changed, hb]
    cases l.raw_pressed <;> cases l.before.airdog_data.follow_button.button_pressed <;> simp
  · exact (run_steady K run (airdog_after K g pre) (fun t ht => by
      rw [after_button_low]; exact h t ht)).2
  · have hlen : (airdog_run K g pre).length = pre.length := run_length K pre g
    rw [List.append_assoc, run_append, List.getElem?_append_right (by omega), hlen,
      Nat.add_sub_cancel_left, run_append,
      List.getElem?_append_left (by rw [run_length]; exact hi)] at hl
    exact pressed_run_first K run (airdog_after K g pre) (fun t ht => by
      rw [after_button_low]; exact h t ht) i l hl hc
  · exact pressed_run_count K run (airdog_after K g pre) (fun t ht => by
      rw [after_button_low]; exact h t ht)

/-- On the sample session, a press held for three ticks after a released tick
changes the button once. -/
theorem button_state_invariant_witness :
    (airdog_run sampleConsts
      (airdog_after sampleConsts sampleStarted [sampleTick 5 1])
      [sampleTick 5 0, sampleTick 3 0, sampleTick 2 0]).countP TickLog.changed ≤ 1 :=
  ((button_state_invariant sampleConsts sampleStarted [sampleTick 5 1]
    [sampleTick 5 0, sampleTick 3 0, sampleTick 2 0] []).2.2 (by decide)).2

/-! ## The end of a tick -/

/-- C9: the last call of every tick, after every command of the tick, is the
request to run `airdog_cycle` again after `USEC2TICK(100000)` (100 ms) when the
running flag is true, and the `GPIO_CLEAR` request on the input mask when it is
false.  The tick queues itself exactly when the flag is true; with the flag
false it queues nothing, with the flag true it clears nothing. -/
theorem end_of_tick (K : Consts) (t : Tick) (g : Globals) :
    (airdog_cycle K t g).2.getLast? =
      some (if g.airdog_running then
          Event.work_queue Worker.airdog_cycle (K.USEC2TICK 100000)
        else
          Event.ioctl g.airdog_data.gpio_fd GpioRequest.GPIO_CLEAR g.airdog_data.inputs) ∧
    emitted (airdog_cycle K t g).2.dropLast = emitted (airdog_cycle K t g).2 ∧
    (rescheduled (airdog_cycle K t g).2 = [K.USEC2TICK 100000] ↔ g.airdog_running = true) ∧
    (g.airdog_running = true →
      cleared (airdog_cycle K t g).2 = [] ∧
      ∀ fd rq a, Event.ioctl fd rq a ∉ (airdog_cycle K t g).2) ∧
    (g.airdog_running = false →
      cleared (airdog_cycle K t g).2 = [(g.airdog_data.gpio_fd, g.airdog_data.inputs)] ∧
      rescheduled (airdog_cycle K t g).2 = [] ∧
      ∀ w d, Event.work_queue w d ∉ (airdog_cycle K t g).2) := by
  obtain ⟨⟨bm, fd, inp, ⟨st, pin, bp⟩, status, sub, ccm⟩, run, cp⟩ := g
  obtain ⟨upd, ns, gv, se⟩ := t
  cases upd <;> cases bp <;> cases run <;>
    by_cases h : gv % 4294967296 &&& 1 <<< pin.toNat = 0 <;>
    simp [airdog_cycle, button_low, h, send_set_mode, emitted, rescheduled, cleared] <;>
    (try split_ifs) <;>
    (try simp [emitted, rescheduled, cleared, List.dropLast])

/-- The sample session, running: the last call of a tick queues the next one. -/
theorem end_of_tick_witness :
    rescheduled (airdog_cycle sampleConsts (sampleTick 5 0) sampleStarted).2 = [10] :=
  ((end_of_tick sampleConsts (sampleTick 5 0) sampleStarted).2.2.1).2 (by decide)

/-! ## The emitted command -/

/-- C10: in a session begun by `airdog_start`, after any ticks and writes of the
running flag, every command a tick emits is the one `send_set_mode` builds:
opcode `VEHICLE_CMD_DO_SET_MODE`, confirmation false, `param1` the base mode
128 | 1 = 129 (safety armed and custom mode enabled, no other bit), `param2` the
resolved target mode, source system and component those of the vehicle status
just copied, target system 1 and target component 50. -/
theorem emitted_command_fields (K : Consts) (e : StartEnv) (g0 : Globals)
    (steps : List Step) (t : Tick) (c : vehicle_command_s)
    (hc : c ∈ emitted (airdog_cycle K t (airdog_session K (airdog_start e g0).1 steps)).2) :
    emitted (send_set_mode K t.send
        (airdog_session K (airdog_start e g0).1 steps).cmd_pub
        (airdog_session K (airdog_start e g0).1 steps).airdog_data.base_mode c.param2).2 = [c] ∧
    c.command = K.VEHICLE_CMD_DO_SET_MODE ∧
    c.confirmation = false ∧
    c.param1 = ((MAV_MODE_FLAG_SAFETY_ARMED ||| MAV_MODE_FLAG_CUSTOM_MODE_ENABLED : Nat) : Int) ∧
    c.param1 = 129 ∧
    (∀ i : Nat, (129 : Nat).testBit i = true ↔ i = 0 ∨ i = 7) ∧
    spec_nextMode K (custom_mode_of
      (snapshot t (airdog_session K (airdog_start e g0).1 steps))) = some c.param2 ∧
    c.source_system = t.send.state.system_id ∧
    c.source_component = t.send.state.component_id ∧
    c.target_system = 1 ∧
    c.target_component = 50 := by
  have hbm : (airdog_session K (airdog_start e g0).1 steps).airdog_data.base_mode = 129 := by
    rw [session_base_mode, start_base_mode]
  rw [cycle_emitted] at hc
  rw [emitted_send, hbm]
  have hbits : ∀ i : Nat, (129 : Nat).testBit i = true ↔ i = 0 ∨ i = 7 := by
    intro i
    by_cases h8 : i < 8
    · interval_cases i <;> decide
    · have : (129 : Nat) < 2 ^ i :=
        lt_of_lt_of_le (by norm_num) (Nat.pow_le_pow_right (by norm_num) (not_lt.mp h8))
      rw [Nat.testBit_lt_two_pow this]
      constructor
      · intro h; exact Bool.noConfusion h
      · rintro (h | h) <;> omega
  split_ifs at hc with hedge
  · rw [hbm] at hc
    cases hn : spec_nextMode K (custom_mode_of
        (snapshot t (airdog_session K (airdog_start e g0).1 steps))) with
    | none => rw [hn] at hc; simp at hc
    | some target =>
      rw [hn] at hc
      simp only [Option.toList, List.map_cons, List.map_nil, List.mem_singleton] at hc
      subst hc
      refine ⟨rfl, rfl, rfl, ?_, rfl, hbits, rfl, rfl, rfl, rfl, rfl⟩
      simp [fill_command, MAV_MODE_FLAG_SAFETY_ARMED, MAV_MODE_FLAG_CUSTOM_MODE_ENABLED]
  · simp at hc

/-- The command of a press at FOLLOW, in the sample session after a write of the
running flag and one released tick. -/
theorem emitted_command_fields_witness :
    sampleCommand ∈ emitted (airdog_cycle sampleConsts (sampleTick 5 0)
      (airdog_session sampleConsts (airdog_start ⟨3, 7, 0⟩ zeroGlobals).1
        [Step.set_running true, Step.tick (sampleTick 5 1)])).2 ∧
    sampleCommand.param1 = 129 ∧
    sampleCommand.target_component = 50 :=
  ⟨by decide,
    (emitted_command_fields sampleConsts ⟨3, 7, 0⟩ zeroGlobals
      [Step.set_running true, Step.tick (sampleTick 5 1)] (sampleTick 5 0) sampleCommand
      (by decide)).2.2.2.2.1,
    (emitted_command_fields sampleConsts ⟨3, 7, 0⟩ zeroGlobals
      [Step.set_running true, Step.tick (sampleTick 5 1)] (sampleTick 5 0) sampleCommand
      (by decide)).2.2.2.2.2.2.2.2.2.2⟩

/-! ## Start-up -/

/-- C11: a failed start-up ends the session only.  When `open` fails,
`airdog_start` clears the running flag and returns having made no other call:
no GPIO configuration, no subscription, no `work_queue`.  When its `work_queue`
call fails, it clears the running flag and returns with no tick queued, that
failed call being its only one and its last.  When both succeed the first tick
is queued with delay 0 and the flag is left as it was. -/
theorem airdog_start_failures (e : StartEnv) (g : Globals) :
    (e.fd < 0 →
      (airdog_start e g).1.airdog_running = false ∧
      (airdog_start e g).2 = [Event.open_gpio] ∧
      queue_calls (airdog_start e g).2 = [] ∧
      start_queued e (airdog_start e g).2 = []) ∧
    (0 ≤ e.fd → e.ret ≠ 0 →
      (airdog_start e g).1.airdog_running = false ∧
      queue_calls (airdog_start e g).2 = [(Worker.airdog_cycle, 0)] ∧
      (airdog_start e g).2.getLast? = some (Event.work_queue Worker.airdog_cycle 0) ∧
      start_queued e (airdog_start e g).2 = []) ∧
    (0 ≤ e.fd → e.ret = 0 →
      (airdog_start e g).1.airdog_running = g.airdog_running ∧
      start_queued e (airdog_start e g).2 = [0]) := by
  rw [start_result]
  refine ⟨fun h => ?_, fun h1 h2 => ?_, fun h1 h2 => ?_⟩
  · simp [h, queue_calls, start_queued, rescheduled]
  · simp [not_lt.mpr h1, h2, queue_calls, start_queued]
  · simp [not_lt.mpr h1, h2, start_queued, rescheduled]

/-- The two failures on the zero-filled record with the flag set: `open`
returning -1, and `work_queue` returning -12. -/
theorem airdog_start_failures_witness :
    (airdog_start ⟨-1, 7, 0⟩ { zeroGlobals with airdog_running := true }).2 =
      [Event.open_gpio] ∧
    (airdog_start ⟨3, 7, -12⟩ { zeroGlobals with airdog_running := true }).1.airdog_running
      = false :=
  ⟨((airdog_start_failures ⟨-1, 7, 0⟩ { zeroGlobals with airdog_running := true }).1
      (by decide)).2.1,
    ((airdog_start_failures ⟨3, 7, -12⟩ { zeroGlobals with airdog_running := true }).2.1
      (by decide) (by decide)).1⟩

/-! ## The command line -/

/-- C12, the code at `stop` with a session running: the branch clears the running
flag, has no `exit`, and so runs on into the path of an unrecognized command:
warning `unrecognized command`, usage line, exit code 1. -/
theorem stop_while_running_ends_unrecognized :
    airdog_main 0 ["airdog", "stop"] samplePressed =
      some { globals := { samplePressed with airdog_running := false },
             events := [Event.warnx Message.stop,
               Event.warnx Message.unrecognized_command, Event.errx 1 Message.usage_line],
             exit_code := 1 } ∧
    samplePressed.airdog_running = true ∧
    (airdog_main 0 ["airdog", "stop"] samplePressed).map MainResult.unrecognized = some true := by
  decide

/-- C13: `start` with the running flag already true exits with code 0 after one
warning; the session record, the running flag and `cmd_pub` are as before and
`work_queue` is not called. -/
theorem start_is_idempotent (ret : Int) (name : String) (more : List String) (g : Globals)
    (h : g.airdog_running = true) :
    airdog_main ret (name :: "start" :: more) g =
      some { globals := g, events := [Event.warnx Message.already_running], exit_code := 0 } ∧
    (airdog_main ret (name :: "start" :: more) g).map (fun r => queue_calls r.events) =
      some [] := by
  simp [airdog_main, h, queue_calls]

/-- A second `start` on the running sample session. -/
theorem start_is_idempotent_witness :
    samplePressed.airdog_running = true ∧
    airdog_main 0 ["airdog", "start"] samplePressed =
      some { globals := samplePressed, events := [Event.warnx Message.already_running],
             exit_code := 0 } :=
  ⟨by decide, (start_is_idempotent 0 "airdog" [] samplePressed (by decide)).1⟩

/-- C19: `stop` with no session running leaves through `errx(1, "not running")`:
exit code 1, that one message, the running flag still false and the session
record and `cmd_pub` untouched. -/
theorem stop_when_not_running (ret : Int) (name : String) (more : List String) (g : Globals)
    (h : g.airdog_running = false) :
    airdog_main ret (name :: "stop" :: more) g =
      some { globals := g, events := [Event.errx 1 Message.not_running], exit_code := 1 } ∧
    g.airdog_running = false := by
  refine ⟨?_, h⟩
  simp [airdog_main, h]

/-- The command `stop` before any start. -/
theorem stop_when_not_running_witness :
    zeroGlobals.airdog_running = false ∧
    airdog_main 0 ["airdog", "stop"] zeroGlobals =
      some { globals := zeroGlobals, events := [Event.errx 1 Message.not_running],
             exit_code := 1 } :=
  ⟨by decide, (stop_when_not_running 0 "airdog" [] zeroGlobals (by decide)).1⟩

/-- C14: `start` with no session running, followed by a successful
`airdog_start`, builds the session record from nothing: whatever the record
held before, `airdog_main` zero-fills it and queues `airdog_start`, and after
`airdog_start` the button is released, the status snapshot is zero, and every
member of the record is a value fixed by the start alone. -/
theorem start_recreates_session (name : String) (more : List String) (g : Globals)
    (e : StartEnv) (hr : g.airdog_running = false) (hfd : 0 ≤ e.fd) (hret : e.ret = 0) :
    airdog_main 0 (name :: "start" :: more) g =
      some { globals := { g with airdog_data := airdog_data_zero, airdog_running := true },
             events := [Event.work_queue Worker.airdog_start 0,
               Event.warnx Message.listener_starting],
             exit_code := 0 } ∧
    (airdog_start e
        { g with airdog_data := airdog_data_zero, airdog_running := true }).1.airdog_data =
      { base_mode := 129, gpio_fd := e.fd, inputs := 1,
        follow_button := { state := PAUSE, pin := 0, button_pressed := false },
        airdog_status := { custom_mode := 0 }, airdog_status_sub := e.sub,
        current_custom_mode := 0 } ∧
    (airdog_start e
        { g with airdog_data := airdog_data_zero, airdog_running := true
        }).1.airdog_data.follow_button.button_pressed = false ∧
    (airdog_start e
        { g with airdog_data := airdog_data_zero, airdog_running := true
        }).1.airdog_data.airdog_status = { custom_mode := 0 } ∧
    (airdog_start e
        { g with airdog_data := airdog_data_zero, airdog_running := true
        }).1.airdog_running = true := by
  refine ⟨by simp [airdog_main, hr], ?_, ?_, ?_, ?_⟩ <;>
    simp [start_result, not_lt.mpr hfd, hret, airdog_data_zero]

/-- A `start` after the sample session was stopped with its button pressed and
mode code 5 in its snapshot. -/
theorem start_recreates_session_witness :
    ({ samplePressed with airdog_running := false } : Globals).airdog_data.follow_button.button_pressed
      = true ∧
    (airdog_start ⟨4, 8, 0⟩
        { ({ samplePressed with airdog_running := false } : Globals) with
          airdog_data := airdog_data_zero, airdog_running := true }).1.airdog_data =
      { base_mode := 129, gpio_fd := 4, inputs := 1,
        follow_button := { state := PAUSE, pin := 0, button_pressed := false },
        airdog_status := { custom_mode := 0 }, airdog_status_sub := 8,
        current_custom_mode := 0 } :=
  ⟨by decide,
    (start_recreates_session "airdog" [] { samplePressed with airdog_running := false }
      ⟨4, 8, 0⟩ (by decide) (by decide) (by decide)).2.1⟩

/-! ## The mode code -/

/-- C15: the code a tick compares with the cycle members is the 32-bit field
`custom_mode` shifted right by 16, so two status values with the same upper 16
bits give the same commands, copied on the tick or stored before it, whatever
their lower 16 bits are. -/
theorem mode_code_is_upper_half (K : Consts) (t : Tick) (g : Globals)
    (s1 s2 : airdog_status_s)
    (h : s1.custom_mode % 4294967296 / 65536 = s2.custom_mode % 4294967296 / 65536) :
    (emitted (airdog_cycle K t g).2 =
      if button_low g.airdog_data t.gpio_values = true ∧
          g.airdog_data.follow_button.button_pressed = false then
        (spec_nextMode K (((snapshot t g).custom_mode % 4294967296 / 65536 : Nat) : Int)).toList.map
          (fill_command K t.send.state g.airdog_data.base_mode)
      else []) ∧
    emitted (airdog_cycle K { t with updated := true, status := s1 } g).2 =
      emitted (airdog_cycle K { t with updated := true, status := s2 } g).2 ∧
    emitted (airdog_cycle K { t with updated := false }
        { g with airdog_data := { g.airdog_data with airdog_status := s1 } }).2 =
      emitted (airdog_cycle K { t with updated := false }
        { g with airdog_data := { g.airdog_data with airdog_status := s2 } }).2 := by
  have hc : ∀ s : airdog_status_s,
      custom_mode_of s = ((s.custom_mode % 4294967296 / 65536 : Nat) : Int) := by
    intro s
    simp [custom_mode_of, Nat.shiftRight_eq_div_pow]
  have hcm : custom_mode_of s1 = custom_mode_of s2 := by rw [hc, hc, h]
  refine ⟨by rw [cycle_emitted, hc], ?_, ?_⟩
  · simp only [cycle_emitted, snapshot, ↓reduceIte, hcm]
  · simp only [cycle_emitted, snapshot, Bool.false_eq_true, ↓reduceIte, hcm, button_low]

/-- Two status values with mode code 5 and different lower halves. -/
theorem mode_code_is_upper_half_witness :
    emitted (airdog_cycle sampleConsts
        { sampleTick 5 0 with updated := true, status := { custom_mode := 5 * 65536 + 17 } }
        sampleStarted).2 =
      emitted (airdog_cycle sampleConsts
        { sampleTick 5 0 with updated := true, status := { custom_mode := 5 * 65536 + 40000 } }
        sampleStarted).2 :=
  (mode_code_is_upper_half sampleConsts (sampleTick 5 0) sampleStarted
    { custom_mode := 5 * 65536 + 17 } { custom_mode := 5 * 65536 + 40000 } (by decide)).2.1

/-! ## The command channel -/

/-- C16, as amended: over every sequence of `send_set_mode` calls that starts
with `cmd_pub = -1` and whose first advertisement returns a handle that is not
negative, the first call advertises the channel with its command as payload and
stores the returned handle, and every later call publishes its command on that
handle, leaves it stored, and advertises nothing. -/
theorem advertise_once_then_publish (K : Consts) (c : SendCall) (cs : List SendCall)
    (h : 0 ≤ c.env.advert) :
    send_calls K (-1) (c :: cs) =
      (c.env.advert, [Event.orb_subscribe_vehicle_status,
        Event.orb_advertise (fill_command K c.env.state c.base_mode c.custom_main_mode)]) ::
      cs.map (fun d =>
        (c.env.advert, [Event.orb_subscribe_vehicle_status,
          Event.orb_publish c.env.advert
            (fill_command K d.env.state d.base_mode d.custom_main_mode)])) := by
  have hs : send_set_mode K c.env (-1) c.base_mode c.custom_main_mode =
      (c.env.advert, [Event.orb_subscribe_vehicle_status,
        Event.orb_advertise (fill_command K c.env.state c.base_mode c.custom_main_mode)]) := by
    simp [send_set_mode]
  simp only [send_calls, hs, send_calls_published K c.env.advert h cs]

/-- Three calls, the advertisement returning handle 44: one advertisement, then
two publications on 44. -/
theorem advertise_once_then_publish_witness :
    (send_calls sampleConsts (-1)
      [⟨⟨⟨9, 8⟩, 44⟩, 129, 3⟩, ⟨⟨⟨9, 8⟩, 45⟩, 129, 5⟩, ⟨⟨⟨9, 8⟩, 46⟩, 129, 5⟩]).map
        (fun r => (r.1, (advertised r.2).length, (published r.2).map (fun q => q.1))) =
      [(44, 1, []), (44, 0, [44]), (44, 0, [44])] := by
  rw [advertise_once_then_publish sampleConsts ⟨⟨⟨9, 8⟩, 44⟩, 129, 3⟩
    [⟨⟨⟨9, 8⟩, 45⟩, 129, 5⟩, ⟨⟨⟨9, 8⟩, 46⟩, 129, 5⟩] (by decide)]
  decide

/-- C16 as stated fails: when the first advertisement returns the negative
handle -1, `cmd_pub` stays negative and the second call advertises again instead
of publishing. -/
theorem advertise_once_counterexample :
    (send_calls sampleConsts (-1)
      [⟨⟨⟨9, 8⟩, -1⟩, 129, 3⟩, ⟨⟨⟨9, 8⟩, 44⟩, 129, 5⟩]).map
        (fun r => (r.1, (advertised r.2).length, (published r.2).length)) =
      [(-1, 1, 0), (44, 1, 0)] := by
  decide

/-! ## The session configuration -/

/-- C17: a tick writes nothing of the session record but the status snapshot and
`button_pressed`; hence after `airdog_start` and any number of ticks (and writes
of the running flag) `base_mode` is 129, the button pin 0, the input mask 1 and
`gpio_fd` the descriptor `open` returned at start. -/
theorem session_configuration_invariant (K : Consts) (e : StartEnv) (g0 : Globals)
    (steps : List Step) :
    (∀ (t : Tick) (g : Globals),
      (airdog_cycle K t g).1.airdog_data =
        { g.airdog_data with
          airdog_status := snapshot t g
          follow_button := { g.airdog_data.follow_button with
            button_pressed := button_low g.airdog_data t.gpio_values } }) ∧
    (airdog_session K (airdog_start e g0).1 steps).airdog_data.base_mode = 129 ∧
    (airdog_session K (airdog_start e g0).1 steps).airdog_data.follow_button.pin = 0 ∧
    (airdog_session K (airdog_start e g0).1 steps).airdog_data.inputs = 1 ∧
    (airdog_session K (airdog_start e g0).1 steps).airdog_data.gpio_fd = e.fd := by
  obtain ⟨h1, h2, h3, h4⟩ := session_frame K steps (airdog_start e g0).1
  refine ⟨fun t g => cycle_data K t g, ?_, ?_, ?_, ?_⟩
  · rw [h1, start_result]; split_ifs <;> rfl
  · rw [h4, start_result]; split_ifs <;> rfl
  · rw [h3, start_result]; split_ifs <;> rfl
  · rw [h2, start_result]; split_ifs <;> rfl

/-- The sample session after a press, a stop from the command line and a last
tick still has the configuration of its start. -/
theorem session_configuration_invariant_witness :
    (airdog_session sampleConsts (airdog_start ⟨3, 7, 0⟩ zeroGlobals).1
      [Step.set_running true, Step.tick (sampleTick 5 0), Step.set_running false,
        Step.tick (sampleTick 3 1)]).airdog_data.gpio_fd = 3 :=
  (session_configuration_invariant sampleConsts ⟨3, 7, 0⟩ zeroGlobals
    [Step.set_running true, Step.tick (sampleTick 5 0), Step.set_running false,
      Step.tick (sampleTick 3 1)]).2.2.2.2

/-- C18: in every state reached from `airdog_start`, a tick depends on the GPIO
word through bit 0 only: two words that agree on bit 0 give, with the same state
and the same other inputs, the same globals and the same events, hence the same
button state and the same commands; bit 0 clear is the pressed level, bit 0 set
the released one. -/
theorem gpio_bit_zero_only (K : Consts) (e : StartEnv) (g0 : Globals) (steps : List Step)
    (t : Tick) (v1 v2 : Nat) (h : v1.testBit 0 = v2.testBit 0) :
    airdog_cycle K { t with gpio_values := v1 }
        (airdog_session K (airdog_start e g0).1 steps) =
      airdog_cycle K { t with gpio_values := v2 }
        (airdog_session K (airdog_start e g0).1 steps) ∧
    button_low (airdog_session K (airdog_start e g0).1 steps).airdog_data v1 =
      !v1.testBit 0 ∧
    (airdog_cycle K { t with gpio_values := v1 }
        (airdog_session K (airdog_start e g0).1 steps)).1.airdog_data.follow_button.button_pressed
      = !v1.testBit 0 := by
  have hpin : (airdog_session K (airdog_start e g0).1 steps).airdog_data.follow_button.pin
      = 0 := by
    rw [(session_frame K steps (airdog_start e g0).1).2.2.2, start_result]
    split_ifs <;> rfl
  have hb := button_low_pin_zero _ v1 hpin
  refine ⟨cycle_gpio_congr K t _ v1 v2 ?_, hb, ?_⟩
  · rw [hb, button_low_pin_zero _ v2 hpin, h]
  · rw [cycle_button]
    exact hb

/-- The words 0xFFFFFFFE and 0 both have bit 0 clear: the sample session reads
both as a press. -/
theorem gpio_bit_zero_only_witness :
    (4294967294 : Nat).testBit 0 = (0 : Nat).testBit 0 ∧
    airdog_cycle sampleConsts { sampleTick 5 1 with gpio_values := 4294967294 }
        (airdog_session sampleConsts (airdog_start ⟨3, 7, 0⟩ zeroGlobals).1
          [Step.set_running true]) =
      airdog_cycle sampleConsts { sampleTick 5 1 with gpio_values := 0 }
        (airdog_session sampleConsts (airdog_start ⟨3, 7, 0⟩ zeroGlobals).1
          [Step.set_running true]) :=
  ⟨by decide,
    (gpio_bit_zero_only sampleConsts ⟨3, 7, 0⟩ zeroGlobals [Step.set_running true]
      (sampleTick 5 1) 4294967294 0 (by decide)).1⟩

end Airdog
